import Mathlib

/-!
Verification of the conversation-format converter in
`kiro_gateway/anthropic_converters.py` (with the data model of
`kiro_gateway/anthropic_models.py`).

The embedding translates the validated (pydantic-typed) representation of an
Anthropic Messages request and the pure converter functions into Lean.
JSON values carried opaquely by the converter (tool inputs, tool schemas)
are modelled by a small JSON type `KJson`.  Generation parameters that the
converter never reads (temperature, top_p, top_k, ...) are omitted from the
request structure; the converter's output does not depend on them.
-/

namespace KiroGateway

/-- Minimal JSON value type for the opaque structured values the converter
passes through (tool-use `input` objects and tool input schemas). -/
inductive KJson where
  | null : KJson
  | bool (b : Bool) : KJson
  | num (n : Int) : KJson
  | str (s : String) : KJson
  | arr (elems : List KJson) : KJson
  | obj (fields : List (String × KJson)) : KJson

/-- Message role: the pydantic model restricts `role` to the two literals
`"user"` and `"assistant"`. -/
inductive Role where
  | user
  | assistant
deriving DecidableEq

/-- A content block (`TextContent`, `ImageContent`, `ToolUseContent`,
`ToolResultContent` from `anthropic_models.py`).  The `ToolResultContent.content`
union `str | list of blocks` is split into the two constructors
`toolResultStr` and `toolResultBlocks`. -/
inductive ContentBlock where
  | text (text : String) : ContentBlock
  | image (media_type : String) (data : String) : ContentBlock
  | toolUse (id : String) (name : String) (input : KJson) : ContentBlock
  | toolResultStr (tool_use_id : String) (rcontent : String) (is_error : Option Bool) : ContentBlock
  | toolResultBlocks (tool_use_id : String) (rcontent : List ContentBlock) (is_error : Option Bool) : ContentBlock

/-- A content value as received by the extractor functions: a plain string, a
list of blocks, or (defensively) any other value, carried as the string
representation that Python's `str()` would produce for it. -/
inductive Content where
  | str (s : String) : Content
  | blocks (bs : List ContentBlock) : Content
  | other (r : String) : Content

/-- `AnthropicMessage`: a role plus string-or-blocks content. -/
structure AnthropicMessage where
  role : Role
  content : Content

/-- One record produced by `extract_tool_uses_from_content`
(`{"name": ..., "input": ..., "toolUseId": ...}`). -/
structure ToolUseEntry where
  name : String
  input : KJson
  toolUseId : String

/-- The single-element `{"text": ...}` wrapper used inside a tool-result
record's `content` array. -/
structure ToolResultTextBlock where
  text : String
deriving DecidableEq

/-- One record produced by `extract_tool_results_from_content`
(`{"content": [{"text": ...}], "status": ..., "toolUseId": ...}`). -/
structure ToolResultEntry where
  content : List ToolResultTextBlock
  status : String
  toolUseId : String
deriving DecidableEq

/-- `extract_text_from_content`: a string is returned verbatim; a block list
is scanned with a running list of text parts that is finally joined; any
other value is rendered via its string representation. -/
def extract_text_from_content (content : Content) : String :=
  match content with
  | Content.str s => s
  | Content.blocks bs =>
    String.join (bs.foldl (fun text_parts b =>
      match b with
      | ContentBlock.text t => text_parts ++ [t]
      | _ => text_parts) [])
  | Content.other r => r

/-- `extract_tool_uses_from_content`: scan list-form content, appending one
record per `tool_use` block; non-list content yields `[]`. -/
def extract_tool_uses_from_content (content : Content) : List ToolUseEntry :=
  match content with
  | Content.blocks bs =>
    bs.foldl (fun tool_uses b =>
      match b with
      | ContentBlock.toolUse id name input =>
        tool_uses ++ [{ name := name, input := input, toolUseId := id }]
      | _ => tool_uses) []
  | _ => []

/-- `extract_tool_results_from_content`: scan list-form content, appending one
record per `tool_result` block.  A string payload passes through `str()`
unchanged; a block-list payload is reduced with `extract_text_from_content`.
`status` is `"error"` exactly when the `is_error` flag is truthy. -/
def extract_tool_results_from_content (content : Content) : List ToolResultEntry :=
  match content with
  | Content.blocks bs =>
    bs.foldl (fun tool_results b =>
      match b with
      | ContentBlock.toolResultStr tool_use_id s is_error =>
        tool_results ++ [{ content := [{ text := s }],
                           status := if is_error.getD false then "error" else "success",
                           toolUseId := tool_use_id }]
      | ContentBlock.toolResultBlocks tool_use_id sub is_error =>
        tool_results ++ [{ content := [{ text := extract_text_from_content (Content.blocks sub) }],
                           status := if is_error.getD false then "error" else "success",
                           toolUseId := tool_use_id }]
      | _ => tool_results) []
  | _ => []

/-- `AnthropicToolInputSchema`: `type`, optional `properties`, optional
`required`, plus pydantic `extra = "allow"` fields. -/
structure AnthropicToolInputSchema where
  type : String := "object"
  properties : Option KJson := none
  required : Option (List String) := none
  extra : List (String × KJson) := []

/-- `AnthropicTool`: name, description, input schema. -/
structure AnthropicTool where
  name : String
  description : String
  input_schema : AnthropicToolInputSchema

/-- The JSON object produced by `tool.input_schema.model_dump(exclude_none=True)`:
declared fields in declaration order with `None`-valued ones omitted, followed
by the extra fields. -/
def input_schema_dump (s : AnthropicToolInputSchema) : KJson :=
  KJson.obj ([("type", KJson.str s.type)]
    ++ (match s.properties with
        | some p => [("properties", p)]
        | none => [])
    ++ (match s.required with
        | some r => [("required", KJson.arr (r.map KJson.str))]
        | none => [])
    ++ s.extra)

/-- `AnthropicMessagesRequest`: the fields the converter reads.  `system` is
typed `Optional[Union[str, List[TextContent]]]` in the source; it is embedded
as an optional `Content` so that the converter's `isinstance` branches (string
/ list / neither) keep their shape. -/
structure AnthropicMessagesRequest where
  model : String
  messages : List AnthropicMessage
  max_tokens : Nat := 4096
  system : Option Content := none
  stop_sequences : Option (List String) := none
  stream : Bool := false
  tools : Option (List AnthropicTool) := none

/-- The `inputSchema` wrapper `{"json": <schema>}` of a Kiro tool spec. -/
structure KiroInputSchemaJson where
  json : KJson

/-- The `toolSpecification` object of a Kiro tool. -/
structure KiroToolSpecification where
  name : String
  description : String
  inputSchema : KiroInputSchemaJson

/-- One element of the Kiro `tools` list. -/
structure KiroTool where
  toolSpecification : KiroToolSpecification

/-- The optional `userInputMessageContext` object; each key is present only
when it was inserted. -/
structure UserInputMessageContext where
  tools : Option (List KiroTool) := none
  toolResults : Option (List ToolResultEntry) := none

/-- A `userInputMessage` object. -/
structure UserInputMessage where
  content : String
  modelId : String
  origin : String
  userInputMessageContext : Option UserInputMessageContext := none

/-- An `assistantResponseMessage` object. -/
structure AssistantResponseMessage where
  content : String
  toolUses : Option (List ToolUseEntry) := none

/-- One entry of the Kiro `history` list. -/
inductive HistoryEntry where
  | userInputMessage (m : UserInputMessage) : HistoryEntry
  | assistantResponseMessage (m : AssistantResponseMessage) : HistoryEntry

/-- The final Kiro payload.  Optional keys that the builder omits from the
dict are `none`. -/
structure KiroPayload where
  chatTriggerType : String
  conversationId : String
  currentMessage : UserInputMessage
  history : Option (List HistoryEntry) := none
  profileArn : Option String := none

/-- `build_kiro_history_from_anthropic`: one history entry per message (the
role is two-valued, so the source's `if user / elif assistant` loop appends
exactly one entry for every message). -/
def build_kiro_history_from_anthropic (messages : List AnthropicMessage)
    (model_id : String) : List HistoryEntry :=
  messages.map (fun msg =>
    match msg.role with
    | Role.user =>
      let text_content := extract_text_from_content msg.content
      let tool_results := extract_tool_results_from_content msg.content
      HistoryEntry.userInputMessage
        { content := text_content
          modelId := model_id
          origin := "AI_EDITOR"
          userInputMessageContext :=
            match tool_results with
            | [] => none
            | _ :: _ => some { tools := none, toolResults := some tool_results } }
    | Role.assistant =>
      let tool_uses := extract_tool_uses_from_content msg.content
      HistoryEntry.assistantResponseMessage
        { content := extract_text_from_content msg.content
          toolUses :=
            match tool_uses with
            | [] => none
            | _ :: _ => some tool_uses })

/-- The per-tool conversion performed inside `convert_anthropic_tools_to_kiro`:
`{"toolSpecification": {"name", "description", "inputSchema": {"json": ...}}}`. -/
def kiro_tool_of (tool : AnthropicTool) : KiroTool :=
  { toolSpecification :=
      { name := tool.name
        description := tool.description
        inputSchema := { json := input_schema_dump tool.input_schema } } }

/-- `convert_anthropic_tools_to_kiro`: `None` for an absent or empty tool
list (`if not tools: return None`), otherwise the per-tool mapping. -/
def convert_anthropic_tools_to_kiro (tools : Option (List AnthropicTool)) :
    Option (List KiroTool) :=
  match tools with
  | none => none
  | some [] => none
  | some ts => some (ts.map kiro_tool_of)

/-- Resolution of `request_data.system` to the `system_prompt` string:
empty when absent (or falsy), verbatim for a string, text-extracted for a
list, and empty in the defensive neither-branch. -/
def resolve_system_prompt (request_data : AnthropicMessagesRequest) : String :=
  match request_data.system with
  | none => ""
  | some (Content.str s) => s
  | some (Content.blocks bs) => extract_text_from_content (Content.blocks bs)
  | some (Content.other _) => ""

/-- `messages[:-1] if len(messages) > 1 else []`. -/
def split_history_messages (messages : List AnthropicMessage) : List AnthropicMessage :=
  if messages.length > 1 then messages.dropLast else []

/-- The system-prompt-into-history step: when the prompt is non-empty and the
first history message has role `user`, that message is replaced (positionally,
in a new list) by a fresh message whose content is
`system_prompt + "\n\n" + extracted original text`. -/
def inject_system_prompt (system_prompt : String)
    (history_messages : List AnthropicMessage) : List AnthropicMessage :=
  if system_prompt = "" then history_messages
  else
    match history_messages with
    | [] => []
    | first :: rest =>
      if first.role = Role.user then
        { role := first.role
          content := Content.str (system_prompt ++ "\n\n" ++ extract_text_from_content first.content) } :: rest
      else first :: rest

/-- `messages[-1]` (the builder only reaches this after the non-empty guard,
so the default is never observable). -/
def current_message_of (request_data : AnthropicMessagesRequest) : AnthropicMessage :=
  (request_data.messages.getLast?).getD { role := Role.user, content := Content.str "" }

/-- The `history` list as it stands after step 6 of the builder (split,
injection, mapping) and before the assistant-fold append. -/
def history_before_fold (request_data : AnthropicMessagesRequest)
    (model_id : String) : List HistoryEntry :=
  build_kiro_history_from_anthropic
    (inject_system_prompt (resolve_system_prompt request_data)
      (split_history_messages request_data.messages))
    model_id

/-- The working current text after extraction and the
`if system_prompt and not history` fallback. -/
def resolved_current_text (request_data : AnthropicMessagesRequest)
    (model_id : String) : String :=
  let current_content := extract_text_from_content (current_message_of request_data).content
  if resolve_system_prompt request_data = "" then current_content
  else
    match history_before_fold request_data model_id with
    | [] => resolve_system_prompt request_data ++ "\n\n" ++ current_content
    | _ :: _ => current_content

/-- The optional `userInputMessageContext` of the current message: `tools`
from the request's tool definitions, `toolResults` from the original current
message when it is a user message; omitted when both are absent. -/
def build_user_input_context (request_data : AnthropicMessagesRequest) :
    Option UserInputMessageContext :=
  let ctx_tools : Option (List KiroTool) :=
    match request_data.tools with
    | none => none
    | some [] => none
    | some ts =>
      match convert_anthropic_tools_to_kiro (some ts) with
      | none => none
      | some [] => none
      | some kiro_tools => some kiro_tools
  let tool_results : List ToolResultEntry :=
    match (current_message_of request_data).role with
    | Role.user => extract_tool_results_from_content (current_message_of request_data).content
    | Role.assistant => []
  let ctx_results : Option (List ToolResultEntry) :=
    match tool_results with
    | [] => none
    | _ :: _ => some tool_results
  match ctx_tools, ctx_results with
  | none, none => none
  | _, _ => some { tools := ctx_tools, toolResults := ctx_results }

/-- The body of `build_kiro_payload_from_anthropic` after the empty-list
guard. -/
def build_kiro_payload_core (get_internal_model_id : String → String)
    (request_data : AnthropicMessagesRequest)
    (conversation_id : String) (profile_arn : String) : KiroPayload :=
  let model_id := get_internal_model_id request_data.model
  let history0 := history_before_fold request_data model_id
  let current_message := current_message_of request_data
  let text0 := resolved_current_text request_data model_id
  let history :=
    if current_message.role = Role.assistant then
      history0 ++ [HistoryEntry.assistantResponseMessage { content := text0 }]
    else history0
  let text1 := if current_message.role = Role.assistant then "Continue" else text0
  let current_content := if text1 = "" then "Continue" else text1
  { chatTriggerType := "MANUAL"
    conversationId := conversation_id
    currentMessage :=
      { content := current_content
        modelId := model_id
        origin := "AI_EDITOR"
        userInputMessageContext := build_user_input_context request_data }
    history :=
      match history with
      | [] => none
      | hd :: tl => some (hd :: tl)
    profileArn := if profile_arn = "" then none else some profile_arn }

/-- `build_kiro_payload_from_anthropic`: raises (`Except.error`) exactly on an
empty message list, otherwise returns the assembled payload. -/
def build_kiro_payload_from_anthropic (get_internal_model_id : String → String)
    (request_data : AnthropicMessagesRequest)
    (conversation_id : String) (profile_arn : String) : Except String KiroPayload :=
  match request_data.messages with
  | [] => Except.error "No messages provided"
  | _ :: _ =>
    Except.ok (build_kiro_payload_core get_internal_model_id request_data
      conversation_id profile_arn)

/-- The current message content of a build result, when it succeeded. -/
def current_content_of (r : Except String KiroPayload) : Option String :=
  match r with
  | Except.ok p => some p.currentMessage.content
  | Except.error _ => none

/-- The history list of a build result (empty when the key is omitted or the
build failed). -/
def history_of (r : Except String KiroPayload) : List HistoryEntry :=
  match r with
  | Except.ok p => p.history.getD []
  | Except.error _ => []

/-- The current message's optional context of a build result. -/
def context_of (r : Except String KiroPayload) : Option UserInputMessageContext :=
  match r with
  | Except.ok p => p.currentMessage.userInputMessageContext
  | Except.error _ => none

/-! ### Specification-side restatements of the extractor contracts -/

/-- Text extraction as the specification words it: a string verbatim; for a
list the in-order concatenation of the `text` field of every block tagged
`text`, everything else contributing nothing; otherwise the string
representation. -/
def extract_text_spec (content : Content) : String :=
  match content with
  | Content.str s => s
  | Content.blocks bs =>
    String.join (bs.filterMap (fun b =>
      match b with
      | ContentBlock.text t => some t
      | _ => none))
  | Content.other r => r

/-- The record the specification prescribes for one `tool_result` block (and
`none` for blocks of any other tag): a single-element text array holding the
payload reduced to one string, status `"error"` exactly when the error flag
is truthy, and the original call id. -/
def tool_result_entry_spec (b : ContentBlock) : Option ToolResultEntry :=
  match b with
  | ContentBlock.toolResultStr tid s e =>
    some { content := [{ text := s }],
           status := if e = some true then "error" else "success",
           toolUseId := tid }
  | ContentBlock.toolResultBlocks tid sub e =>
    some { content := [{ text := extract_text_spec (Content.blocks sub) }],
           status := if e = some true then "error" else "success",
           toolUseId := tid }
  | _ => none

/-- Tool-result extraction as the specification words it: an in-order scan of
list-form content keeping exactly the `tool_result` blocks; non-list content
yields the empty list. -/
def extract_tool_results_spec (content : Content) : List ToolResultEntry :=
  match content with
  | Content.blocks bs => bs.filterMap tool_result_entry_spec
  | _ => []

/-! ### Helper lemmas -/

lemma extract_text_foldl (bs : List ContentBlock) (acc : List String) :
    bs.foldl (fun text_parts b =>
      match b with
      | ContentBlock.text t => text_parts ++ [t]
      | _ => text_parts) acc
    = acc ++ bs.filterMap (fun b =>
      match b with
      | ContentBlock.text t => some t
      | _ => none) := by
  induction bs generalizing acc with
  | nil => simp
  | cons b bs ih => cases b <;> simp [ih]

lemma extract_text_eq_spec (c : Content) :
    extract_text_from_content c = extract_text_spec c := by
  cases c with
  | str s => rfl
  | blocks bs =>
    show String.join _ = String.join _
    rw [extract_text_foldl]
    rfl
  | other r => rfl

lemma status_of_is_error (e : Option Bool) :
    (if e.getD false then "error" else "success")
      = (if e = some true then "error" else "success") := by
  cases e with
  | none => rfl
  | some b => cases b <;> rfl

lemma extract_tool_results_foldl (bs : List ContentBlock) (acc : List ToolResultEntry) :
    bs.foldl (fun tool_results b =>
      match b with
      | ContentBlock.toolResultStr tool_use_id s is_error =>
        tool_results ++ [{ content := [{ text := s }],
                           status := if is_error.getD false then "error" else "success",
                           toolUseId := tool_use_id }]
      | ContentBlock.toolResultBlocks tool_use_id sub is_error =>
        tool_results ++ [{ content := [{ text := extract_text_from_content (Content.blocks sub) }],
                           status := if is_error.getD false then "error" else "success",
                           toolUseId := tool_use_id }]
      | _ => tool_results) acc
    = acc ++ bs.filterMap tool_result_entry_spec := by
  induction bs generalizing acc with
  | nil => simp
  | cons b bs ih =>
    rw [List.foldl_cons, ih, List.filterMap_cons]
    cases b <;> simp [tool_result_entry_spec, status_of_is_error, extract_text_eq_spec]

lemma append_sep_ne_empty (a b : String) : a ++ "\n\n" ++ b ≠ "" := by
  intro h
  have hlen := congrArg String.length h
  rw [String.length_append, String.length_append] at hlen
  have h2 : ("\n\n" : String).length = 2 := rfl
  have h0 : ("" : String).length = 0 := rfl
  rw [h2, h0] at hlen
  omega

lemma build_ok (map : String → String) (req : AnthropicMessagesRequest)
    (cid pa : String) (h : req.messages ≠ []) :
    build_kiro_payload_from_anthropic map req cid pa =
      Except.ok (build_kiro_payload_core map req cid pa) := by
  cases hm : req.messages with
  | nil => exact absurd hm h
  | cons a l => simp [build_kiro_payload_from_anthropic, hm]

lemma core_content_eq (map : String → String) (req : AnthropicMessagesRequest)
    (cid pa : String) :
    (build_kiro_payload_core map req cid pa).currentMessage.content =
      (if (if (current_message_of req).role = Role.assistant then "Continue"
           else resolved_current_text req (map req.model)) = ""
       then "Continue"
       else (if (current_message_of req).role = Role.assistant then "Continue"
             else resolved_current_text req (map req.model))) := rfl

lemma core_context_eq (map : String → String) (req : AnthropicMessagesRequest)
    (cid pa : String) :
    (build_kiro_payload_core map req cid pa).currentMessage.userInputMessageContext =
      build_user_input_context req := rfl

lemma core_history_eq (map : String → String) (req : AnthropicMessagesRequest)
    (cid pa : String) :
    (build_kiro_payload_core map req cid pa).history =
      (match (if (current_message_of req).role = Role.assistant then
                history_before_fold req (map req.model) ++
                  [HistoryEntry.assistantResponseMessage
                    { content := resolved_current_text req (map req.model) }]
              else history_before_fold req (map req.model)) with
       | [] => none
       | hd :: tl => some (hd :: tl)) := rfl

lemma inject_nil (s : String) : inject_system_prompt s [] = [] := by
  unfold inject_system_prompt
  split <;> rfl

lemma history_before_fold_singleton (req : AnthropicMessagesRequest) (mid : String)
    (m : AnthropicMessage) (hm : req.messages = [m]) :
    history_before_fold req mid = [] := by
  unfold history_before_fold
  rw [show split_history_messages req.messages = [] from by rw [hm]; rfl]
  rw [inject_nil]
  rfl

lemma history_before_fold_cons (req : AnthropicMessagesRequest) (mid : String)
    (m0 : AnthropicMessage) (rest : List AnthropicMessage)
    (hm : req.messages = m0 :: rest) (hr : rest ≠ [])
    (hs : resolve_system_prompt req ≠ "") (hu : m0.role = Role.user) :
    history_before_fold req mid =
      HistoryEntry.userInputMessage
        { content := resolve_system_prompt req ++ "\n\n" ++ extract_text_from_content m0.content
          modelId := mid
          origin := "AI_EDITOR"
          userInputMessageContext := none }
        :: build_kiro_history_from_anthropic rest.dropLast mid := by
  obtain ⟨r1, rs, rfl⟩ : ∃ r1 rs, rest = r1 :: rs := by
    cases rest with
    | nil => exact absurd rfl hr
    | cons a l => exact ⟨a, l, rfl⟩
  unfold history_before_fold
  have hsplit : split_history_messages req.messages = m0 :: (r1 :: rs).dropLast := by
    rw [hm]
    unfold split_history_messages
    rw [if_pos (by simp), List.dropLast_cons₂]
  rw [hsplit]
  have hinj : inject_system_prompt (resolve_system_prompt req) (m0 :: (r1 :: rs).dropLast) =
      { role := m0.role
        content := Content.str (resolve_system_prompt req ++ "\n\n"
          ++ extract_text_from_content m0.content) } :: (r1 :: rs).dropLast := by
    unfold inject_system_prompt
    rw [if_neg hs]
    simp [hu]
  rw [hinj]
  simp [build_kiro_history_from_anthropic, hu, extract_text_from_content,
    extract_tool_results_from_content]

/-! ### Claim theorems -/

/-- Claim C8: `extract_text_from_content` returns a string verbatim, reduces a
block list to the in-order concatenation of the `text` fields of the blocks
tagged `text` (blocks of other tags contributing nothing, the empty list
yielding `""`), and falls back to the string representation of any other
value. -/
theorem extract_text_contract :
    ∀ c, extract_text_from_content c = extract_text_spec c :=
  extract_text_eq_spec

/-- Claim C7: `extract_tool_results_from_content` scans list-form content in
order, emitting for each `tool_result` block a record whose content is a
single-element text array holding the block's payload reduced to one string,
whose status is `"error"` exactly when the error flag is truthy (else
`"success"`, including an absent flag), and whose `toolUseId` is the original
call id; non-list content yields the empty list. -/
theorem extract_tool_results_contract :
    ∀ c, extract_tool_results_from_content c = extract_tool_results_spec c := by
  intro c
  cases c with
  | str s => rfl
  | blocks bs =>
    show List.foldl _ [] bs = _
    rw [extract_tool_results_foldl]
    rfl
  | other r => rfl

/-- Claim C5: the payload builder fails with the invalid-request error
(`"No messages provided"`) exactly when the message list is empty, and for
every request with at least one message it returns a payload without
raising. -/
theorem empty_message_list_guard :
    (∀ (map : String → String) (req : AnthropicMessagesRequest) (cid pa : String),
      req.messages = [] →
        build_kiro_payload_from_anthropic map req cid pa =
          Except.error "No messages provided") ∧
    (∀ (map : String → String) (req : AnthropicMessagesRequest) (cid pa : String),
      req.messages ≠ [] →
        build_kiro_payload_from_anthropic map req cid pa =
          Except.ok (build_kiro_payload_core map req cid pa)) := by
  constructor
  · intro map req cid pa h
    simp [build_kiro_payload_from_anthropic, h]
  · intro map req cid pa h
    exact build_ok map req cid pa h

/-- Witness for C5: the empty request errors, a one-message request
succeeds. -/
theorem empty_message_list_guard_witness :
    build_kiro_payload_from_anthropic (fun m => m)
      { model := "m", messages := [] } "cid" "" =
      Except.error "No messages provided" ∧
    build_kiro_payload_from_anthropic (fun m => m)
      { model := "m", messages := [{ role := Role.user, content := Content.str "Hi" }] }
      "cid" "" =
      Except.ok (build_kiro_payload_core (fun m => m)
        { model := "m", messages := [{ role := Role.user, content := Content.str "Hi" }] }
        "cid" "") :=
  ⟨empty_message_list_guard.1 (fun m => m) _ "cid" "" rfl,
   empty_message_list_guard.2 (fun m => m) _ "cid" "" (List.cons_ne_nil _ _)⟩

/-- Claim C4: for every non-empty message list the builder returns exactly one
current `userInputMessage` whose content is never the empty string; whenever
the resolved current text is empty the content is the fallback
`"Continue"`. -/
theorem current_content_never_empty (map : String → String)
    (req : AnthropicMessagesRequest) (cid pa : String) (hne : req.messages ≠ []) :
    ∃ p, build_kiro_payload_from_anthropic map req cid pa = Except.ok p ∧
      p.currentMessage.content ≠ "" ∧
      (resolved_current_text req (map req.model) = "" →
        p.currentMessage.content = "Continue") := by
  refine ⟨build_kiro_payload_core map req cid pa, build_ok map req cid pa hne, ?_, ?_⟩
  · rw [core_content_eq]
    by_cases h : (if (current_message_of req).role = Role.assistant then "Continue"
        else resolved_current_text req (map req.model)) = ""
    · rw [if_pos h]
      decide
    · rw [if_neg h]
      exact h
  · intro h0
    rw [core_content_eq]
    by_cases hrole : (current_message_of req).role = Role.assistant
    · simp [hrole]
    · simp [hrole, h0]

/-- Witness for C4: a single user message with empty content yields
`"Continue"`. -/
theorem current_content_never_empty_witness :
    ∃ p, build_kiro_payload_from_anthropic (fun m => m)
        { model := "m", messages := [{ role := Role.user, content := Content.str "" }] }
        "cid" "" = Except.ok p ∧
      p.currentMessage.content ≠ "" ∧
      (resolved_current_text
          { model := "m", messages := [{ role := Role.user, content := Content.str "" }] }
          ((fun m => m) "m") = "" →
        p.currentMessage.content = "Continue") :=
  current_content_never_empty (fun m => m) _ "cid" "" (List.cons_ne_nil _ _)

/-- Counterexample to C1 as stated: with system prompt `"S"` and messages
`[assistant:"A", user:"Hi"]` the first history message is not a user message,
so per the claim the current content should be `"S\n\nHi"`; the builder
instead leaves it `"Hi"` (the system prompt is dropped, because the fallback
tests the emptiness of the built history, which is non-empty here). -/
theorem system_dropped_when_first_history_assistant :
    current_content_of (build_kiro_payload_from_anthropic (fun m => m)
      { model := "m"
        messages := [{ role := Role.assistant, content := Content.str "A" },
                     { role := Role.user, content := Content.str "Hi" }]
        system := some (Content.str "S") } "cid" "arn") = some "Hi" ∧
    some "Hi" ≠ some ("S" ++ "\n\n" ++ "Hi") :=
  ⟨rfl, by decide⟩

/-- Claim C1 (amended): with a non-empty system prompt, the prompt is
prefixed onto the current text only when there are no history messages at all
(a single-message conversation); for a single user message the final current
content is `systemPrompt ++ "\n\n" ++ currentText`.  (When history messages
exist but the first one is not a user message, the prompt is dropped.) -/
theorem system_fallback_single_message (map : String → String)
    (req : AnthropicMessagesRequest) (cid pa : String) (m : AnthropicMessage)
    (hm : req.messages = [m]) (hu : m.role = Role.user)
    (hs : resolve_system_prompt req ≠ "") :
    current_content_of (build_kiro_payload_from_anthropic map req cid pa) =
      some (resolve_system_prompt req ++ "\n\n" ++ extract_text_from_content m.content) := by
  have hne : req.messages ≠ [] := by
    rw [hm]
    exact List.cons_ne_nil _ _
  rw [build_ok map req cid pa hne]
  show some (build_kiro_payload_core map req cid pa).currentMessage.content = _
  rw [core_content_eq]
  have hcur : current_message_of req = m := by
    unfold current_message_of
    rw [hm]
    rfl
  have hres : resolved_current_text req (map req.model) =
      resolve_system_prompt req ++ "\n\n" ++ extract_text_from_content m.content := by
    unfold resolved_current_text
    rw [hcur, if_neg hs, history_before_fold_singleton req (map req.model) m hm]
  have hnotasst : ¬((current_message_of req).role = Role.assistant) := by
    rw [hcur, hu]
    intro h
    exact Role.noConfusion h
  rw [if_neg hnotasst, hres, if_neg (append_sep_ne_empty _ _)]

/-- Witness for C1 (amended): system `"S"`, single user message `"Hi"` gives
current content `"S\n\nHi"`. -/
theorem system_fallback_single_message_witness :
    current_content_of (build_kiro_payload_from_anthropic (fun m => m)
      { model := "m"
        messages := [{ role := Role.user, content := Content.str "Hi" }]
        system := some (Content.str "S") } "cid" "arn") = some "S\n\nHi" :=
  (system_fallback_single_message (fun m => m) _ "cid" "arn"
    { role := Role.user, content := Content.str "Hi" } rfl rfl (by decide)).trans
    (by decide)

/-- Counterexample to C2 as stated: a conversation ending in an assistant
message that contains a `tool_use` block is folded into history as an
`assistantResponseMessage` *without* a `toolUses` list (the fold at the end
of the builder only copies the content). -/
theorem assistant_fold_drops_tool_uses :
    (extract_tool_uses_from_content
      (Content.blocks [ContentBlock.toolUse "t1" "f" (KJson.obj [])])).length = 1 ∧
    (history_of (build_kiro_payload_from_anthropic (fun m => m)
      { model := "m"
        messages := [{ role := Role.user, content := Content.str "Hi" },
                     { role := Role.assistant,
                       content := Content.blocks
                         [ContentBlock.toolUse "t1" "f" (KJson.obj [])] }] }
      "cid" "arn")).getLast? =
      some (HistoryEntry.assistantResponseMessage { content := "", toolUses := none }) :=
  ⟨rfl, rfl⟩

/-- Claim C2 (amended): whenever the last message has role `assistant`, the
builder appends to the backend history an `assistantResponseMessage` whose
content is the resolved current text and which never carries a `toolUses`
list (tool uses of that folded message are dropped), and the final current
`userInputMessage` content is exactly `"Continue"`. -/
theorem assistant_terminated_fold (map : String → String)
    (req : AnthropicMessagesRequest) (cid pa : String)
    (hne : req.messages ≠ [])
    (ha : (current_message_of req).role = Role.assistant) :
    history_of (build_kiro_payload_from_anthropic map req cid pa) =
      history_before_fold req (map req.model) ++
        [HistoryEntry.assistantResponseMessage
          { content := resolved_current_text req (map req.model), toolUses := none }] ∧
    current_content_of (build_kiro_payload_from_anthropic map req cid pa) =
      some "Continue" := by
  rw [build_ok map req cid pa hne]
  constructor
  · show (build_kiro_payload_core map req cid pa).history.getD [] = _
    rw [core_history_eq, if_pos ha]
    cases hh : history_before_fold req (map req.model) with
    | nil => rfl
    | cons a t => rfl
  · show some (build_kiro_payload_core map req cid pa).currentMessage.content = _
    rw [core_content_eq, if_pos ha, if_neg (by decide : ¬(("Continue" : String) = ""))]

/-- Witness for C2 (amended): `[user:"Hi", assistant:"Hello"]` yields history
`[userInputMessage "Hi", assistantResponseMessage "Hello"]` and current
content `"Continue"`. -/
theorem assistant_terminated_fold_witness :
    history_of (build_kiro_payload_from_anthropic (fun m => m)
      { model := "m"
        messages := [{ role := Role.user, content := Content.str "Hi" },
                     { role := Role.assistant, content := Content.str "Hello" }] }
      "cid" "arn") =
      [HistoryEntry.userInputMessage
        { content := "Hi", modelId := "m", origin := "AI_EDITOR",
          userInputMessageContext := none },
       HistoryEntry.assistantResponseMessage { content := "Hello", toolUses := none }] ∧
    current_content_of (build_kiro_payload_from_anthropic (fun m => m)
      { model := "m"
        messages := [{ role := Role.user, content := Content.str "Hi" },
                     { role := Role.assistant, content := Content.str "Hello" }] }
      "cid" "arn") = some "Continue" :=
  ⟨(assistant_terminated_fold (fun m => m)
      { model := "m"
        messages := [{ role := Role.user, content := Content.str "Hi" },
                     { role := Role.assistant, content := Content.str "Hello" }] }
      "cid" "arn" (List.cons_ne_nil _ _) rfl).1.trans rfl,
   (assistant_terminated_fold (fun m => m)
      { model := "m"
        messages := [{ role := Role.user, content := Content.str "Hi" },
                     { role := Role.assistant, content := Content.str "Hello" }] }
      "cid" "arn" (List.cons_ne_nil _ _) rfl).2⟩

/-- Claim C3: with a non-empty system prompt, at least two messages, and a
first history message of role `user`, the built history's entry at index 0 is
a `userInputMessage` with content `systemPrompt ++ "\n\n" ++ U` (where `U` is
the first message's extracted text), and all later history entries are built
from their messages unchanged. -/
theorem system_prompt_injected_into_history (map : String → String)
    (req : AnthropicMessagesRequest) (cid pa : String)
    (m0 : AnthropicMessage) (rest : List AnthropicMessage)
    (hm : req.messages = m0 :: rest) (hr : rest ≠ [])
    (hs : resolve_system_prompt req ≠ "") (hu : m0.role = Role.user) :
    history_before_fold req (map req.model) =
      HistoryEntry.userInputMessage
        { content := resolve_system_prompt req ++ "\n\n" ++ extract_text_from_content m0.content
          modelId := map req.model
          origin := "AI_EDITOR"
          userInputMessageContext := none }
        :: build_kiro_history_from_anthropic rest.dropLast (map req.model) ∧
    (history_of (build_kiro_payload_from_anthropic map req cid pa)).head? =
      some (HistoryEntry.userInputMessage
        { content := resolve_system_prompt req ++ "\n\n" ++ extract_text_from_content m0.content
          modelId := map req.model
          origin := "AI_EDITOR"
          userInputMessageContext := none }) := by
  have hfold := history_before_fold_cons req (map req.model) m0 rest hm hr hs hu
  refine ⟨hfold, ?_⟩
  have hne : req.messages ≠ [] := by
    rw [hm]
    exact List.cons_ne_nil _ _
  rw [build_ok map req cid pa hne]
  show ((build_kiro_payload_core map req cid pa).history.getD []).head? = _
  rw [core_history_eq]
  by_cases hrole : (current_message_of req).role = Role.assistant
  · rw [if_pos hrole, hfold]
    rfl
  · rw [if_neg hrole, hfold]
    rfl

/-- Witness for C3: system `"S"`, messages `[user:"U", user:"Hi"]` gives a
history whose entry 0 has content `"S\n\nU"`. -/
theorem system_prompt_injected_into_history_witness :
    history_before_fold
      { model := "m"
        messages := [{ role := Role.user, content := Content.str "U" },
                     { role := Role.user, content := Content.str "Hi" }]
        system := some (Content.str "S") } "m" =
      [HistoryEntry.userInputMessage
        { content := "S\n\nU", modelId := "m", origin := "AI_EDITOR",
          userInputMessageContext := none }] ∧
    (history_of (build_kiro_payload_from_anthropic (fun m => m)
      { model := "m"
        messages := [{ role := Role.user, content := Content.str "U" },
                     { role := Role.user, content := Content.str "Hi" }]
        system := some (Content.str "S") } "cid" "arn")).head? =
      some (HistoryEntry.userInputMessage
        { content := "S\n\nU", modelId := "m", origin := "AI_EDITOR",
          userInputMessageContext := none }) :=
  ⟨(system_prompt_injected_into_history (fun m => m)
      { model := "m"
        messages := [{ role := Role.user, content := Content.str "U" },
                     { role := Role.user, content := Content.str "Hi" }]
        system := some (Content.str "S") } "cid" "arn"
      { role := Role.user, content := Content.str "U" }
      [{ role := Role.user, content := Content.str "Hi" }]
      rfl (List.cons_ne_nil _ _) (by decide) rfl).1.trans rfl,
   (system_prompt_injected_into_history (fun m => m)
      { model := "m"
        messages := [{ role := Role.user, content := Content.str "U" },
                     { role := Role.user, content := Content.str "Hi" }]
        system := some (Content.str "S") } "cid" "arn"
      { role := Role.user, content := Content.str "U" }
      [{ role := Role.user, content := Content.str "Hi" }]
      rfl (List.cons_ne_nil _ _) (by decide) rfl).2.trans rfl⟩

/-- Claim C10: when a non-empty system prompt is injected into a first history
message of role `user` that contains `tool_result` blocks, the rebuilt entry
at index 0 carries no `userInputMessageContext` at all — the first history
message's tool results are dropped from the backend payload. -/
theorem injection_drops_first_history_tool_results (map : String → String)
    (req : AnthropicMessagesRequest) (cid pa : String)
    (m0 : AnthropicMessage) (rest : List AnthropicMessage)
    (hm : req.messages = m0 :: rest) (hr : rest ≠ [])
    (hs : resolve_system_prompt req ≠ "") (hu : m0.role = Role.user)
    (_htr : extract_tool_results_from_content m0.content ≠ []) :
    (history_of (build_kiro_payload_from_anthropic map req cid pa)).head? =
      some (HistoryEntry.userInputMessage
        { content := resolve_system_prompt req ++ "\n\n" ++ extract_text_from_content m0.content
          modelId := map req.model
          origin := "AI_EDITOR"
          userInputMessageContext := none }) := by
  have hfold := history_before_fold_cons req (map req.model) m0 rest hm hr hs hu
  have hne : req.messages ≠ [] := by
    rw [hm]
    exact List.cons_ne_nil _ _
  rw [build_ok map req cid pa hne]
  show ((build_kiro_payload_core map req cid pa).history.getD []).head? = _
  rw [core_history_eq]
  by_cases hrole : (current_message_of req).role = Role.assistant
  · rw [if_pos hrole, hfold]
    rfl
  · rw [if_neg hrole, hfold]
    rfl

/-- Witness for C10: the first history message carries a tool result, yet
after injection of system prompt `"S"` the rebuilt entry 0 has no context. -/
theorem injection_drops_first_history_tool_results_witness :
    extract_tool_results_from_content
      (Content.blocks [ContentBlock.toolResultStr "t1" "ok" none]) ≠ [] ∧
    (history_of (build_kiro_payload_from_anthropic (fun m => m)
      { model := "m"
        messages := [{ role := Role.user,
                       content := Content.blocks [ContentBlock.toolResultStr "t1" "ok" none] },
                     { role := Role.user, content := Content.str "Hi" }]
        system := some (Content.str "S") } "cid" "arn")).head? =
      some (HistoryEntry.userInputMessage
        { content := "S\n\n", modelId := "m", origin := "AI_EDITOR",
          userInputMessageContext := none }) :=
  ⟨by decide,
   (injection_drops_first_history_tool_results (fun m => m)
      { model := "m"
        messages := [{ role := Role.user,
                       content := Content.blocks [ContentBlock.toolResultStr "t1" "ok" none] },
                     { role := Role.user, content := Content.str "Hi" }]
        system := some (Content.str "S") } "cid" "arn"
      { role := Role.user,
        content := Content.blocks [ContentBlock.toolResultStr "t1" "ok" none] }
      [{ role := Role.user, content := Content.str "Hi" }]
      rfl (List.cons_ne_nil _ _) (by decide) rfl (by decide)).trans rfl⟩

/-- Claim C6: when tool definitions are supplied, the current message's
context carries one `toolSpecification` per definition, in order, preserving
name, description, and the (dumped) input schema — whose `properties` and
`required` fields, when present, appear verbatim in the dumped object; when
no tool definitions are supplied and the original current message is not a
user message with `tool_result` blocks, the context key is omitted
entirely. -/
theorem tools_context_contract :
    (∀ (map : String → String) (req : AnthropicMessagesRequest) (cid pa : String)
        (ts : List AnthropicTool),
      req.messages ≠ [] → req.tools = some ts → ts ≠ [] →
        ∃ p, build_kiro_payload_from_anthropic map req cid pa = Except.ok p ∧
          ∃ ctx, p.currentMessage.userInputMessageContext = some ctx ∧
            ctx.tools = some (ts.map kiro_tool_of)) ∧
    (∀ (sch : AnthropicToolInputSchema) (props : KJson),
      sch.properties = some props →
        ∃ kvs, input_schema_dump sch = KJson.obj kvs ∧ ("properties", props) ∈ kvs) ∧
    (∀ (sch : AnthropicToolInputSchema) (reqd : List String),
      sch.required = some reqd →
        ∃ kvs, input_schema_dump sch = KJson.obj kvs ∧
          ("required", KJson.arr (reqd.map KJson.str)) ∈ kvs) ∧
    (∀ (map : String → String) (req : AnthropicMessagesRequest) (cid pa : String),
      req.messages ≠ [] →
      (req.tools = none ∨ req.tools = some []) →
      ((current_message_of req).role = Role.user →
        extract_tool_results_from_content (current_message_of req).content = []) →
        ∃ p, build_kiro_payload_from_anthropic map req cid pa = Except.ok p ∧
          p.currentMessage.userInputMessageContext = none) := by
  refine ⟨?_, ?_, ?_, ?_⟩
  · intro map req cid pa ts hne ht hts
    obtain ⟨t0, ts', rfl⟩ : ∃ t0 ts', ts = t0 :: ts' := by
      cases ts with
      | nil => exact absurd rfl hts
      | cons a l => exact ⟨a, l, rfl⟩
    refine ⟨build_kiro_payload_core map req cid pa, build_ok map req cid pa hne, ?_⟩
    rw [core_context_eq]
    unfold build_user_input_context
    rw [ht]
    unfold convert_anthropic_tools_to_kiro
    cases hres : (match (current_message_of req).role with
        | Role.user => extract_tool_results_from_content (current_message_of req).content
        | Role.assistant => []) with
    | nil => exact ⟨_, rfl, rfl⟩
    | cons a l => exact ⟨_, rfl, rfl⟩
  · intro sch props hp
    refine ⟨_, rfl, ?_⟩
    rw [hp]
    simp
  · intro sch reqd hr
    refine ⟨_, rfl, ?_⟩
    rw [hr]
    simp
  · intro map req cid pa hne htools hres
    refine ⟨build_kiro_payload_core map req cid pa, build_ok map req cid pa hne, ?_⟩
    rw [core_context_eq]
    unfold build_user_input_context
    have hresults : (match (current_message_of req).role with
        | Role.user => extract_tool_results_from_content (current_message_of req).content
        | Role.assistant => []) = [] := by
      cases hrole : (current_message_of req).role with
      | user => exact hres hrole
      | assistant => rfl
    rcases htools with h | h <;> rw [h, hresults]

/-- Witness for C6: a request with one tool definition gets a context whose
`tools` preserves name, description and schema; a request without tools and a
plain-text current message gets no context at all. -/
theorem tools_context_contract_witness :
    (∃ p, build_kiro_payload_from_anthropic (fun m => m)
        { model := "m"
          messages := [{ role := Role.user, content := Content.str "Hi" }]
          tools := some [{ name := "search", description := "find things",
                           input_schema :=
                             { type := "object"
                               properties := some (KJson.obj
                                 [("q", KJson.obj [("type", KJson.str "string")])])
                               required := some ["q"] } }] } "cid" "arn" =
          Except.ok p ∧
      ∃ ctx, p.currentMessage.userInputMessageContext = some ctx ∧
        ctx.tools = some ([{ name := "search", description := "find things",
                             input_schema :=
                               { type := "object"
                                 properties := some (KJson.obj
                                   [("q", KJson.obj [("type", KJson.str "string")])])
                                 required := some ["q"] }}].map kiro_tool_of)) ∧
    (∃ p, build_kiro_payload_from_anthropic (fun m => m)
        { model := "m"
          messages := [{ role := Role.user, content := Content.str "Hi" }] } "cid" "arn" =
          Except.ok p ∧
      p.currentMessage.userInputMessageContext = none) :=
  ⟨tools_context_contract.1 (fun m => m)
      { model := "m"
        messages := [{ role := Role.user, content := Content.str "Hi" }]
        tools := some [{ name := "search", description := "find things",
                         input_schema :=
                           { type := "object"
                             properties := some (KJson.obj
                               [("q", KJson.obj [("type", KJson.str "string")])])
                             required := some ["q"] } }] } "cid" "arn" _
      (List.cons_ne_nil _ _) rfl (List.cons_ne_nil _ _),
   tools_context_contract.2.2.2 (fun m => m)
      { model := "m"
        messages := [{ role := Role.user, content := Content.str "Hi" }] } "cid" "arn"
      (List.cons_ne_nil _ _) (Or.inl rfl) (fun _ => rfl)⟩

end KiroGateway
